import Mathlib

/-!
Verification of the text2api repository against its natural-language
specification.  The relevant Python modules are shallowly embedded as
executable Lean definitions; machine strings are modelled as `List Char`
(over the ASCII range plus the Polish diacritics that the source's regex
classes name explicitly), and fallible code returns `Except`/`Option`.
-/

set_option maxRecDepth 4000

namespace Text2Api

/-! ### Shared character and string utilities

These model the Python primitives (`str.lower`, the regex classes
`\s`/`\w`, substring search, splitting on newlines) used throughout the
repository.  Python's Unicode-aware classes are modelled over ASCII plus
the Polish letters that appear literally in the source's patterns. -/

/-- Characters of the regex class for whitespace (and of Python
`str.strip`/`str.split` defaults), restricted to ASCII. -/
def isPyWs (c : Char) : Bool :=
  c = ' ' || c = '\t' || c = '\n' || c = '\r' || c = '\x0b' || c = '\x0c'

/-- Lower-case Polish diacritic letters named explicitly in the source. -/
def isPolishLower (c : Char) : Bool :=
  c = 'ą' || c = 'ć' || c = 'ę' || c = 'ł' || c = 'ń' || c = 'ó' || c = 'ś' || c = 'ź' || c = 'ż'

/-- Upper-case Polish diacritic letters named explicitly in the source. -/
def isPolishUpper (c : Char) : Bool :=
  c = 'Ą' || c = 'Ć' || c = 'Ę' || c = 'Ł' || c = 'Ń' || c = 'Ó' || c = 'Ś' || c = 'Ź' || c = 'Ż'

/-- ASCII letters. -/
def isAsciiLetter (c : Char) : Bool :=
  ('a' ≤ c && c ≤ 'z') || ('A' ≤ c && c ≤ 'Z')

/-- ASCII digits. -/
def isAsciiDigit (c : Char) : Bool :=
  '0' ≤ c && c ≤ '9'

/-- The regex class for word characters (`[A-Za-z0-9_]` plus letters),
modelled over ASCII and the Polish diacritics used by this repository. -/
def isWordChar (c : Char) : Bool :=
  isAsciiLetter c || isAsciiDigit c || c = '_' || isPolishLower c || isPolishUpper c

/-- Python `str.lower`, modelled over ASCII (the inputs this development
evaluates contain no upper-case non-ASCII letters). -/
def lowerChar (c : Char) : Char :=
  if 'A' ≤ c ∧ c ≤ 'Z' then Char.ofNat (c.toNat + 32) else c

/-- Lower-case an entire string. -/
def lowerStr (l : List Char) : List Char := l.map lowerChar

/-- `needle` occurs as a contiguous substring of `hay` — Python's `in`
operator on strings, and `re.search` on a literal pattern. -/
def containsSub (hay needle : List Char) : Bool :=
  match hay with
  | [] => needle.isEmpty
  | c :: t => needle.isPrefixOf (c :: t) || containsSub t needle

/-- Split a string at newline characters (the line structure of the
generated Dockerfile text).  Always returns at least one (possibly
empty) line. -/
def splitLines : List Char → List (List Char)
  | [] => [[]]
  | c :: t =>
    if c = '\n' then [] :: splitLines t
    else
      match splitLines t with
      | [] => [[c]]
      | h :: r => (c :: h) :: r

/-- Replace every maximal run of characters satisfying `p` by the single
character `rep` — the effect of Python `re.sub(class+, rep, s)` for a
one-character class or for the whitespace class. -/
def collapseRuns (p : Char → Bool) (rep : Char) : List Char → List Char
  | [] => []
  | [c] => if p c then [rep] else [c]
  | a :: b :: t =>
    if p a then
      (if p b then collapseRuns p rep (b :: t) else rep :: collapseRuns p rep (b :: t))
    else a :: collapseRuns p rep (b :: t)

/-- Python `str.strip(c)`: remove every leading and trailing occurrence
of the character `c`. -/
def stripChar (c : Char) (l : List Char) : List Char :=
  ((l.dropWhile (· == c)).rdropWhile (· == c))

/-- Remove duplicates keeping the first occurrence of each element —
Python `list(dict.fromkeys(xs))`. -/
def dedupFirstAux (seen : List String) : List String → List String
  | [] => []
  | x :: xs =>
    if seen.contains x then dedupFirstAux seen xs
    else x :: dedupFirstAux (x :: seen) xs

/-- Remove duplicates from a string list, preserving first-seen order. -/
def dedupFirst (l : List String) : List String := dedupFirstAux [] l

/-- `true` when the two-character pattern `[c, c]` occurs nowhere in the
list (no two adjacent occurrences of `c`). -/
def noTwo (c : Char) : List Char → Bool
  | [] => true
  | [_] => true
  | a :: b :: t => !(a == c && b == c) && noTwo c (b :: t)

namespace Validation

/-- Characters removed by the first step of `sanitize_filename`
(`src/text2api/utils/validation.py`): the regex class of the characters
angle brackets, colon, double quote, slash, backslash, pipe, question
mark and star. -/
def isDangerous (c : Char) : Bool :=
  c = '<' || c = '>' || c = ':' || c = '"' || c = '/' || c = '\\' || c = '|' || c = '?' || c = '*'

/-- Embedding of sanitize_filename from src/text2api/utils/validation.py.
The first three steps (dangerous-character removal, whitespace runs to a
single underscore, collapsing repeated underscores) are embedded from the
source.  Modelled from the spec: the source file is truncated right after
the third re.sub, so the tail of the function — stripping leading and
trailing underscores and defaulting to "unnamed" for an empty result — is
missing from the file under src/ and is modelled from the spec sentence,
corroborated by the repository's own unit test test_sanitize_filename. -/
def sanitize_filename (filename : List Char) : List Char :=
  let f1 := filename.filter (fun c => !(isDangerous c))
  let f2 := collapseRuns isPyWs '_' f1
  let f3 := collapseRuns (· == '_') '_' f2
  let f4 := stripChar '_' f3
  if f4.isEmpty then "unnamed".data else f4

end Validation

namespace SpecExtractor

/-- Embedding of SpecExtractor._extract_operations from
src/src/text2api/nlp/spec_extractor.py: start from the default
operation list, append an operation for each keyword class found in the
lower-cased text, then de-duplicate preserving first-seen order. -/
def extract_operations (text : List Char) : List String :=
  let operations : List String := ["create", "read", "update", "delete", "list"]
  let t := lowerStr text
  let operations :=
    if containsSub t "list".data || containsSub t "get all".data then
      operations ++ ["list"] else operations
  let operations :=
    if containsSub t "create".data || containsSub t "add".data || containsSub t "new".data then
      operations ++ ["create"] else operations
  let operations :=
    if containsSub t "read".data || containsSub t "get".data || containsSub t "fetch".data then
      operations ++ ["read"] else operations
  let operations :=
    if containsSub t "update".data || containsSub t "modify".data || containsSub t "change".data then
      operations ++ ["update"] else operations
  let operations :=
    if containsSub t "delete".data || containsSub t "remove".data || containsSub t "erase".data then
      operations ++ ["delete"] else operations
  dedupFirst operations

end SpecExtractor

/-! ### The dataclass data model of `src/text2api/core/analyzer.py` -/

namespace Core

/-- The ApiType enum. -/
inductive ApiType
  | rest | graphql | grpc | websocket | cli | sse | json_rpc
deriving DecidableEq, Repr

/-- The string value of each ApiType member. -/
def ApiType.value : ApiType → String
  | .rest => "rest"
  | .graphql => "graphql"
  | .grpc => "grpc"
  | .websocket => "websocket"
  | .cli => "cli"
  | .sse => "sse"
  | .json_rpc => "json_rpc"

/-- The enum constructor call ApiType(s): returns the member whose value
is s, or fails with a ValueError for any other string. -/
def ApiType.fromString (s : String) : Except String ApiType :=
  if s = "rest" then .ok .rest
  else if s = "graphql" then .ok .graphql
  else if s = "grpc" then .ok .grpc
  else if s = "websocket" then .ok .websocket
  else if s = "cli" then .ok .cli
  else if s = "sse" then .ok .sse
  else if s = "json_rpc" then .ok .json_rpc
  else .error ("ValueError: " ++ s ++ " is not a valid ApiType")

/-- The HttpMethod enum. -/
inductive HttpMethod
  | GET | POST | PUT | DELETE | PATCH | HEAD | OPTIONS
deriving DecidableEq, Repr

/-- The enum constructor call HttpMethod(s): ValueError on anything but
the seven upper-case method names. -/
def HttpMethod.fromString (s : String) : Except String HttpMethod :=
  if s = "GET" then .ok .GET
  else if s = "POST" then .ok .POST
  else if s = "PUT" then .ok .PUT
  else if s = "DELETE" then .ok .DELETE
  else if s = "PATCH" then .ok .PATCH
  else if s = "HEAD" then .ok .HEAD
  else if s = "OPTIONS" then .ok .OPTIONS
  else .error ("ValueError: " ++ s ++ " is not a valid HttpMethod")

/-- The Field dataclass.  The only default values ever stored are small
integers, so the dynamically typed default slot is modelled as an
optional integer. -/
structure Field where
  name : String
  type : String
  required : Bool := true
  description : String := ""
  default : Option Int := none
  validation : Option String := none
deriving DecidableEq, Repr

/-- The Endpoint dataclass. -/
structure Endpoint where
  path : String
  method : HttpMethod
  name : String
  description : String
  parameters : List Field
  request_body : Option (List Field) := none
  response_body : Option (List Field) := none
  auth_required : Bool := false
deriving DecidableEq, Repr

/-- One field record of the loosely typed model dicts built by
TextAnalyzer._create_models (keys present only when the source dict
literal includes them). -/
structure MField where
  name : String
  type : String
  required : Option Bool := none
  primary_key : Option Bool := none
  auto_now_add : Option Bool := none
  auto_now : Option Bool := none
deriving DecidableEq, Repr

/-- One loosely typed model dict (name plus field list). -/
structure ModelDict where
  name : String
  fields : List MField
deriving DecidableEq, Repr

/-- The ApiSpec dataclass. -/
structure ApiSpec where
  name : String
  description : String
  api_type : ApiType
  base_path : String
  endpoints : List Endpoint
  models : List ModelDict
  auth_type : Option String := none
  database_required : Bool := false
  external_apis : Option (List String) := none
  language : String := "en"
  framework : String := "fastapi"
deriving DecidableEq, Repr

end Core

/-! ### Language detector, `src/text2api/llm/language_detector.py` -/

namespace LanguageDetector

/-- Step 1 of _clean_text: Python text.strip() followed by
re.sub of whitespace runs with a single space. -/
def cleanStep1 (l : List Char) : List Char :=
  collapseRuns isPyWs ' ' ((l.dropWhile isPyWs).rdropWhile isPyWs)

/-- Length of the URL-regex match starting at the head of the list
(the pattern http, optional s, colon-slash-slash, then one or more
non-whitespace characters, greedy), or 0 when there is no match. -/
def urlMatchLen (l : List Char) : Nat :=
  let p : Nat :=
    if "https://".data.isPrefixOf l then 8
    else if "http://".data.isPrefixOf l then 7
    else 0
  if p = 0 then 0
  else
    let run := (l.drop p).takeWhile (fun c => !(isPyWs c))
    if run.isEmpty then 0 else p + run.length

/-- The re.sub scan removing URL matches: at each position, delete a
match and resume after it, otherwise keep the character.  Fuel-driven so
that it evaluates in the kernel; the initial fuel is the input length,
which is always sufficient since each step consumes at least one
character and one unit of fuel. -/
def removeUrlsAux : Nat → List Char → List Char
  | 0, l => l
  | _ + 1, [] => []
  | fuel + 1, c :: t =>
    let n := urlMatchLen (c :: t)
    if n = 0 then c :: removeUrlsAux fuel t
    else removeUrlsAux fuel ((c :: t).drop n)

/-- Second re.sub of _clean_text: remove URLs. -/
def removeUrls (l : List Char) : List Char := removeUrlsAux l.length l

/-- The character class before the at sign in the e-mail regex. -/
def isEmailLocal (c : Char) : Bool :=
  isAsciiLetter c || isAsciiDigit c || c = '.' || c = '_' || c = '%' || c = '+' || c = '-'

/-- The domain character class of the e-mail regex (letters, digits,
dot, hyphen). -/
def isEmailDomain (c : Char) : Bool :=
  isAsciiLetter c || isAsciiDigit c || c = '.' || c = '-'

/-- The final character class of the e-mail regex; the source's class
literally contains a pipe character. -/
def isEmailTld (c : Char) : Bool :=
  isAsciiLetter c || c = '|'

/-- Word-character test on an optional character (ends of string count
as non-word for the word-boundary assertion). -/
def wordAt (o : Option Char) : Bool :=
  match o with
  | some ch => isWordChar ch
  | none => false

/-- The greedy-with-backtracking search for the length of the final
two-or-more repetition of the e-mail regex followed by a word boundary:
try the current length, then shorter ones, failing below two. -/
def emailTldLen : Nat → List Char → Option Nat
  | 0, _ => none
  | 1, _ => none
  | c + 2, t =>
    if (wordAt ((t.drop (c + 1)).head?) != wordAt ((t.drop (c + 2)).head?)) then some (c + 2)
    else emailTldLen (c + 1) t

/-- The greedy-with-backtracking search over the domain-run length b:
require a dot right after the run, then a matching final repetition;
on failure retry with a shorter run, failing below one. -/
def emailDomainLen : Nat → List Char → Option Nat
  | 0, _ => none
  | b + 1, s =>
    let retry := emailDomainLen b s
    match (s.drop (b + 1)).head? with
    | some ch =>
      if ch = '.' then
        let t := s.drop (b + 2)
        match emailTldLen ((t.takeWhile isEmailTld).length) t with
        | some c => some ((b + 1) + 1 + c)
        | none => retry
      else retry
    | none => retry

/-- Length of the e-mail regex match starting at the head of the list,
or 0 when there is no match.  The leading word boundary is checked
against prevIsWord, the word-character status of the preceding
character; the local part is the maximal run (a shorter run cannot be
followed by the at sign, so the regex engine never profits from
backtracking it). -/
def emailMatchLen (prevIsWord : Bool) (l : List Char) : Nat :=
  let a := (l.takeWhile isEmailLocal).length
  if a = 0 then 0
  else if (prevIsWord != wordAt l.head?) = false then 0
  else
    match (l.drop a).head? with
    | some ch =>
      if ch = '@' then
        let s := l.drop (a + 1)
        match emailDomainLen ((s.takeWhile isEmailDomain).length) s with
        | some m => a + 1 + m
        | none => 0
      else 0
    | none => 0

/-- The re.sub scan removing e-mail matches, carrying the
word-character status of the previous character of the original string
for the boundary assertions. -/
def removeEmailsAux : Nat → Bool → List Char → List Char
  | 0, _, l => l
  | _ + 1, _, [] => []
  | fuel + 1, prevW, c :: t =>
    let n := emailMatchLen prevW (c :: t)
    if n = 0 then c :: removeEmailsAux fuel (isWordChar c) t
    else
      let lastW := wordAt ((c :: t).take n).getLast?
      removeEmailsAux fuel lastW ((c :: t).drop n)

/-- Third re.sub of _clean_text: remove e-mail addresses. -/
def removeEmails (l : List Char) : List Char := removeEmailsAux l.length false l

/-- The characters kept by the final re.sub of _clean_text: word
characters, whitespace, the Polish diacritics listed in the class, and
basic punctuation. -/
def isKeptChar (c : Char) : Bool :=
  isWordChar c || isPyWs c || isPolishLower c || isPolishUpper c
    || c = '.' || c = ',' || c = '!' || c = '?' || c = ';' || c = ':'
    || c = '(' || c = ')' || c = '-'

/-- LanguageDetector._clean_text: collapse whitespace after stripping,
remove URLs, remove e-mail addresses, drop the remaining special
characters. -/
def clean_text (l : List Char) : List Char :=
  (removeEmails (removeUrls (cleanStep1 l))).filter isKeptChar

/-- LanguageDetector.detect_language.  The statistical branch (the
seeded langdetect call of the external library together with the
pattern corroboration applied to its result, lines 78-95 of the source)
is abstracted by the function argument `statistical`; the theorems
below quantify over it, so they hold in particular for the real
branch. -/
def detect_language (statistical : List Char → String) (text : List Char) : String :=
  let cleaned := clean_text text
  if cleaned.length < 10 then "en"
  else statistical cleaned

end LanguageDetector

/-! ### The text analyzer, `src/text2api/core/analyzer.py`

The parsed JSON object returned by the Ollama call is modelled by typed
records whose optional slots mirror exactly the keys the analyzer
accesses; a missing key is `none`.  The Ollama transport itself is
external, so `analyze_text` takes the outcome of
`_analyze_with_ollama`'s try block as an argument: `none` stands for
the exception path (network failure or `json.loads` failure), which the
source replaces by `_fallback_analysis`; `some a` stands for a
successfully parsed JSON object. -/

namespace Analyzer

/-- One parameter/field dict of the LLM response.  The name and type
keys are read with direct indexing (a KeyError escapes when absent),
the others with .get defaults. -/
structure OllamaParam where
  name? : Option String
  type? : Option String
  required? : Option Bool := none
  description? : Option String := none
deriving DecidableEq, Repr

/-- One endpoint dict of the LLM response (all keys read with .get). -/
structure OllamaEndpoint where
  path? : Option String := none
  method? : Option String := none
  name? : Option String := none
  description? : Option String := none
  parameters? : Option (List OllamaParam) := none
  request_body? : Option (List OllamaParam) := none
  response_body? : Option (List OllamaParam) := none
deriving DecidableEq, Repr

/-- The top-level analysis dict.  auth_required and database_required
appear in the prompt schema but are never read by _create_api_spec, so
they are not modelled. -/
structure OllamaAnalysis where
  api_type? : Option String := none
  name? : Option String := none
  description? : Option String := none
  framework? : Option String := none
  entities? : Option (List String) := none
  endpoints? : Option (List OllamaEndpoint) := none
  external_apis? : Option (List String) := none
deriving DecidableEq, Repr

/-- Conversion of one parameter/field dict to a Field, as written in
_create_endpoints: KeyError (an escaping exception) when name or type
is absent. -/
def convertParam (p : OllamaParam) : Except String Core.Field :=
  match p.name?, p.type? with
  | some n, some t =>
    .ok { name := n, type := t, required := p.required?.getD true,
          description := p.description?.getD "" }
  | _, _ => .error "KeyError"

/-- Conversion of one endpoint dict to an Endpoint, as written in
_create_endpoints: the method string goes through the HttpMethod enum
constructor (ValueError on unknown values); request_body/response_body
are converted only when present and non-empty (Python truthiness). -/
def convertEndpoint (ep : OllamaEndpoint) : Except String Core.Endpoint := do
  let method ← Core.HttpMethod.fromString (ep.method?.getD "GET")
  let params ← (ep.parameters?.getD []).mapM convertParam
  let reqBody ← match ep.request_body? with
    | some l =>
      if l.isEmpty then pure none
      else do
        let fs ← l.mapM convertParam
        pure (some fs)
    | none => pure (none : Option (List Core.Field))
  let respBody ← match ep.response_body? with
    | some l =>
      if l.isEmpty then pure none
      else do
        let fs ← l.mapM convertParam
        pure (some fs)
    | none => pure (none : Option (List Core.Field))
  .ok { path := ep.path?.getD "/", method := method, name := ep.name?.getD "unnamed",
        description := ep.description?.getD "", parameters := params,
        request_body := reqBody, response_body := respBody }

/-- Python entity.rstrip("s"): drop every trailing letter s. -/
def rstripS (s : String) : String := ⟨s.data.rdropWhile (· == 's')⟩

/-- TextAnalyzer._generate_crud_endpoints: the standard CRUD endpoints
for each detected entity and each detected CRUD verb. -/
def generate_crud_endpoints (entities : List String) (crud_ops : List String) :
    List Core.Endpoint :=
  entities.flatMap (fun entity =>
    let entity_singular := rstripS entity
    let entity_path := "/" ++ entity
    (if crud_ops.contains "create" then
      [{ path := entity_path, method := Core.HttpMethod.POST,
         name := "create_" ++ entity_singular,
         description := "Create a new " ++ entity_singular,
         parameters := [],
         request_body := some
           [{ name := "name", type := "string",
              description := entity_singular ++ " name" },
            { name := "description", type := "string", required := false }],
         response_body := some
           [{ name := "id", type := "integer" },
            { name := "name", type := "string" },
            { name := "created_at", type := "datetime" }] }]
    else [])
    ++ (if crud_ops.contains "read" then
      [{ path := entity_path, method := Core.HttpMethod.GET,
         name := "list_" ++ entity,
         description := "Get list of " ++ entity,
         parameters :=
           [{ name := "limit", type := "integer", required := false, default := some 10 },
            { name := "offset", type := "integer", required := false, default := some 0 }],
         response_body := some
           [{ name := "items", type := "array" },
            { name := "total", type := "integer" }] },
       { path := entity_path ++ "/\x7bid\x7d", method := Core.HttpMethod.GET,
         name := "get_" ++ entity_singular,
         description := "Get " ++ entity_singular ++ " by ID",
         parameters :=
           [{ name := "id", type := "integer",
              description := entity_singular ++ " ID" }],
         response_body := some
           [{ name := "id", type := "integer" },
            { name := "name", type := "string" }] }]
    else [])
    ++ (if crud_ops.contains "update" then
      [{ path := entity_path ++ "/\x7bid\x7d", method := Core.HttpMethod.PUT,
         name := "update_" ++ entity_singular,
         description := "Update " ++ entity_singular,
         parameters :=
           [{ name := "id", type := "integer",
              description := entity_singular ++ " ID" }],
         request_body := some
           [{ name := "name", type := "string", required := false },
            { name := "description", type := "string", required := false }] }]
    else [])
    ++ (if crud_ops.contains "delete" then
      [{ path := entity_path ++ "/\x7bid\x7d", method := Core.HttpMethod.DELETE,
         name := "delete_" ++ entity_singular,
         description := "Delete " ++ entity_singular,
         parameters :=
           [{ name := "id", type := "integer",
              description := entity_singular ++ " ID" }] }]
    else []))

/-- TextAnalyzer._create_endpoints: convert the LLM endpoints first and,
when that produced none and pattern entities exist, synthesize the CRUD
endpoints instead. -/
def create_endpoints (ollama_endpoints : List OllamaEndpoint)
    (entities : List String) (crud_ops : List String) :
    Except String (List Core.Endpoint) := do
  let endpoints ← ollama_endpoints.mapM convertEndpoint
  pure (if endpoints.isEmpty && !entities.isEmpty then
    generate_crud_endpoints entities crud_ops
  else endpoints)

/-- ASCII upper-casing of one character. -/
def upperChar (c : Char) : Char :=
  if 'a' ≤ c ∧ c ≤ 'z' then Char.ofNat (c.toNat - 32) else c

/-- Python str.capitalize: first character upper-cased, the rest
lower-cased (modelled over ASCII). -/
def capitalize (s : String) : String :=
  match s.data with
  | [] => ""
  | c :: t => ⟨upperChar c :: lowerStr t⟩

/-- TextAnalyzer._create_models: one model dict per entity of the union
of pattern and LLM entities.  The source materialises the union with
list(set(...)), whose ordering CPython leaves unspecified; it is
modelled as first-occurrence order, and no theorem below depends on the
order. -/
def create_models (pattern_entities ollama_entities : List String) :
    List Core.ModelDict :=
  (dedupFirst (pattern_entities ++ ollama_entities)).map (fun entity =>
    { name := capitalize (rstripS entity),
      fields :=
        [{ name := "id", type := "integer", primary_key := some true },
         { name := "name", type := "string", required := some true },
         { name := "description", type := "string", required := some false },
         { name := "created_at", type := "datetime", auto_now_add := some true },
         { name := "updated_at", type := "datetime", auto_now := some true }] })

/-- Python str.isalpha, modelled over ASCII letters and the Polish
diacritics. -/
def isPyAlpha (c : Char) : Bool :=
  isAsciiLetter c || isPolishLower c || isPolishUpper c

/-- Python str.split() with no separator: split on whitespace runs and
drop empty words. -/
def splitWhitespace (l : List Char) : List (List Char) :=
  (l.splitOnP isPyWs).filter (fun w => !w.isEmpty)

/-- TextAnalyzer._extract_name_from_text: lower-case the text up to the
first period, drop stop words and non-alphabetic words, join the first
three with underscores, defaulting to generated_api. -/
def extract_name_from_text (text : String) : String :=
  let first_sentence := text.data.takeWhile (fun c => !(c == '.'))
  let words := splitWhitespace (lowerStr first_sentence)
  let stop_words : List String := ["api", "for", "to", "the", "a", "an", "create", "build", "make"]
  let name_words := words.filter
    (fun w => !(stop_words.contains (⟨w⟩ : String)) && !w.isEmpty && w.all isPyAlpha)
  if name_words.isEmpty then "generated_api"
  else ⟨List.intercalate "_".data (name_words.take 3)⟩

/-- re.search of an alternation of literal words. -/
def searchLits (t : List Char) (lits : List String) : Bool :=
  lits.any (fun w => containsSub t w.data)

/-- re.search of the pattern real, optional non-newline character, time
(the only non-literal alternative among the API-type patterns). -/
def realTimeScan : List Char → Bool
  | [] => false
  | c :: rest =>
    ("realtime".data.isPrefixOf (c :: rest)
      || ("real".data.isPrefixOf (c :: rest)
          && (match ((c :: rest).drop 4).head? with
              | some ch => !(ch == '\n') && "time".data.isPrefixOf ((c :: rest).drop 5)
              | none => false)))
      || realTimeScan rest

/-- The API-type detection loop of _analyze_patterns: the api_types
patterns are tried in dict insertion order, first match wins, default
rest. -/
def detectApiType (t : List Char) : Core.ApiType :=
  if searchLits t ["rest", "restful", "http", "api", "endpoint"] then .rest
  else if searchLits t ["graphql", "graph", "query", "mutation", "subscription"] then .graphql
  else if searchLits t ["grpc", "protobuf", "protocol buffer", "rpc"] then .grpc
  else if searchLits t ["websocket", "live", "socket"] || realTimeScan t then .websocket
  else if searchLits t ["cli", "command", "terminal", "shell", "script"] then .cli
  else .rest

/-- The CRUD-verb detection loop of _analyze_patterns, in pattern
order. -/
def detectCrudOps (t : List Char) : List String :=
  (if searchLits t ["create", "add", "insert", "new"] then ["create"] else [])
    ++ (if searchLits t ["read", "get", "fetch", "retrieve", "list", "show"] then ["read"] else [])
    ++ (if searchLits t ["update", "edit", "modify", "change"] then ["update"] else [])
    ++ (if searchLits t ["delete", "remove", "destroy"] then ["delete"] else [])

/-- The entity alternation of _analyze_patterns. -/
def entityLits : List String :=
  ["user", "product", "order", "customer", "item", "post", "article", "comment", "category"]

/-- re.finditer over the entity alternation: leftmost non-overlapping
matches, alternatives tried in order (fuel-driven for kernel
evaluation; the input length is always enough fuel). -/
def findEntitiesAux : Nat → List Char → List String
  | 0, _ => []
  | _ + 1, [] => []
  | fuel + 1, c :: t =>
    match entityLits.find? (fun w => w.data.isPrefixOf (c :: t)) with
    | some w => w :: findEntitiesAux fuel ((c :: t).drop w.data.length)
    | none => findEntitiesAux fuel t

/-- All entity matches of the text. -/
def findEntities (t : List Char) : List String := findEntitiesAux t.length t

/-- The record returned by _analyze_patterns. -/
structure PatternAnalysis where
  api_type : Core.ApiType
  crud_operations : List String
  entities : List String
  auth_required : Bool
  database_required : Bool
deriving DecidableEq, Repr

/-- TextAnalyzer._analyze_patterns.  The entities list goes through
list(set(...)) in the source, whose order CPython leaves unspecified;
it is modelled as first-occurrence order, and no theorem below depends
on the order. -/
def analyze_patterns (text : String) : PatternAnalysis :=
  let t := lowerStr text.data
  { api_type := detectApiType t,
    crud_operations := detectCrudOps t,
    entities := dedupFirst (findEntities t),
    auth_required := searchLits t ["auth", "login", "register", "token", "jwt", "session", "oauth"],
    database_required :=
      searchLits t ["database", "db", "sql", "postgres", "mysql", "mongodb", "store", "persist"] }

/-- The framework_mapping .get of _create_api_spec (default fastapi for
the members without an entry, sse and json_rpc). -/
def frameworkFor (api_type : Core.ApiType) (oll : OllamaAnalysis) : String :=
  match api_type with
  | .rest => oll.framework?.getD "fastapi"
  | .graphql => "graphene"
  | .grpc => "grpc"
  | .websocket => "websockets"
  | .cli => "click"
  | _ => "fastapi"

/-- TextAnalyzer._create_api_spec.  The two enum constructor calls
(ApiType on the analysis value, HttpMethod inside endpoint conversion)
and the direct dict indexing of parameter dicts are the operations that
can raise; they surface as the error case. -/
def create_api_spec (text : String) (oll : OllamaAnalysis) (pat : PatternAnalysis)
    (language : String) : Except String Core.ApiSpec := do
  let api_type ← Core.ApiType.fromString (oll.api_type?.getD pat.api_type.value)
  let endpoints ← create_endpoints (oll.endpoints?.getD []) pat.entities pat.crud_operations
  .ok { name := oll.name?.getD (extract_name_from_text text),
        description := oll.description?.getD "Generated API",
        api_type := api_type,
        base_path := "/api/v1",
        endpoints := endpoints,
        models := create_models pat.entities (oll.entities?.getD []),
        auth_type := if pat.auth_required then some "jwt" else none,
        database_required := pat.database_required,
        external_apis := some (oll.external_apis?.getD []),
        language := language,
        framework := frameworkFor api_type oll }

/-- TextAnalyzer._fallback_analysis, as the analysis record the
exception handler of _analyze_with_ollama returns. -/
def fallback_analysis (text : String) : OllamaAnalysis :=
  { api_type? := some "rest",
    name? := some (extract_name_from_text text),
    description? := some "Generated API from text description",
    framework? := some "fastapi",
    entities? := some ["item"],
    endpoints? := some [],
    external_apis? := some [] }

/-- TextAnalyzer.analyze_text: detect the language, take the Ollama
analysis (or the fallback when the Ollama call or its JSON parsing
raised, modelled by `none`), run the pattern analysis, and build the
spec.  An error value models an exception escaping analyze_text. -/
def analyze_text (statistical : List Char → String)
    (ollamaResult : Option OllamaAnalysis) (text : String) :
    Except String Core.ApiSpec :=
  let language := LanguageDetector.detect_language statistical text.data
  let oll := ollamaResult.getD (fallback_analysis text)
  let pat := analyze_patterns text
  create_api_spec text oll pat language

end Analyzer

/-! ### Docker text generation, `src/text2api/utils/docker_utils.py` -/

namespace DockerUtils

open Core

/-- The Dockerfile port table of generate_dockerfile: an explicit None
entry for click, and a .get default of 8000 for unknown frameworks. -/
def dockerfilePort (framework : String) : Option Nat :=
  if framework = "fastapi" then some 8000
  else if framework = "flask" then some 5000
  else if framework = "graphene" then some 8000
  else if framework = "grpc" then some 50051
  else if framework = "websockets" then some 8765
  else if framework = "click" then none
  else some 8000

/-- The fixed Dockerfile skeleton built by the f-string of
generate_dockerfile, with the base image, spec name and spec description
interpolated. -/
def dockerfileHeader (spec : ApiSpec) (base_image : String) : String :=
  "FROM " ++ base_image
    ++ "\n\n# Metadata\nLABEL maintainer=\"" ++ spec.name
    ++ "\"\nLABEL description=\"" ++ spec.description
    ++ "\"\n\n# Set environment variables\nENV PYTHONUNBUFFERED=1\nENV PYTHONDONTWRITEBYTECODE=1\n\n# Set work directory\nWORKDIR /app\n\n# Install system dependencies\nRUN apt-get update && apt-get install -y \\\n    build-essential \\\n    curl \\\n    && rm -rf /var/lib/apt/lists/*\n\n# Copy requirements first for better caching\nCOPY requirements.txt .\n\n# Install Python dependencies\nRUN pip install --no-cache-dir -r requirements.txt\n\n# Copy application code\nCOPY . .\n\n"

/-- The conditional EXPOSE block of generate_dockerfile (skipped when the
port table yields no port, i.e. for click). -/
def dockerfileExpose (port : Option Nat) : String :=
  match port with
  | some p => "# Expose port\nEXPOSE " ++ toString p ++ "\n\n"
  | none => ""

/-- The framework-specific final command of generate_dockerfile. -/
def dockerfileCmd (framework : String) : String :=
  if framework = "fastapi" then
    "CMD [\"uvicorn\", \"main:app\", \"--host\", \"0.0.0.0\", \"--port\", \"8000\"]"
  else if framework = "flask" then "CMD [\"python\", \"app.py\"]"
  else if framework = "graphene" then "CMD [\"python\", \"app.py\"]"
  else if framework = "grpc" then "CMD [\"python\", \"server.py\"]"
  else if framework = "websockets" then "CMD [\"python\", \"server.py\"]"
  else if framework = "click" then "ENTRYPOINT [\"python\", \"cli.py\"]"
  else "CMD [\"python\", \"app.py\"]"

/-- DockerManager.generate_dockerfile: skeleton, optional EXPOSE block,
framework-specific command. -/
def generate_dockerfile (spec : ApiSpec) (base_image : String) : String :=
  dockerfileHeader spec base_image
    ++ dockerfileExpose (dockerfilePort spec.framework)
    ++ dockerfileCmd spec.framework

/-- One service entry of the docker-compose dict (only the keys the
source ever writes). -/
structure ComposeService where
  build : Option String := none
  image : Option String := none
  container_name : Option String := none
  restart : Option String := none
  ports : Option (List String) := none
  depends_on : Option (List String) := none
  environment : Option (List String) := none
  volumes : Option (List String) := none
deriving DecidableEq, Repr

/-- The docker-compose dict before YAML serialisation: version, the
services mapping in insertion order, and the optional top-level named
volumes (their values are always null in the source). -/
structure ComposeFile where
  version : String
  services : List (String × ComposeService)
  volumes : Option (List String) := none
deriving DecidableEq, Repr

/-- Python dict assignment services[k] = v: replace the value when the
key is present, append otherwise. -/
def setService (k : String) (v : ComposeService) :
    List (String × ComposeService) → List (String × ComposeService)
  | [] => [(k, v)]
  | (k2, v2) :: t => if k2 = k then (k, v) :: t else (k2, v2) :: setService k v t

/-- In-place mutation of the service stored under an existing key
(services[k][field] = ...). -/
def modifyService (k : String) (f : ComposeService → ComposeService) :
    List (String × ComposeService) → List (String × ComposeService)
  | [] => []
  | (k2, v2) :: t => if k2 = k then (k2, f v2) :: t else (k2, v2) :: modifyService k f t

/-- Python dict lookup services[k] (None when absent), used to state
properties of the generated compose dict. -/
def lookupService (k : String) : List (String × ComposeService) → Option ComposeService
  | [] => none
  | (k2, v) :: t => if k2 = k then some v else lookupService k t

/-- Python str.replace("_", "-"): a single-character substitution. -/
def replaceUnderscore (s : String) : String :=
  ⟨s.data.map (fun c => if c = '_' then '-' else c)⟩

/-- The compose port table (a .get with default "8000:8000"). -/
def composePortMapping (framework : String) : String :=
  if framework = "fastapi" then "8000:8000"
  else if framework = "flask" then "5000:5000"
  else if framework = "graphene" then "8000:8000"
  else if framework = "grpc" then "50051:50051"
  else if framework = "websockets" then "8765:8765"
  else "8000:8000"

/-- The initial services dict of generate_docker_compose: the single app
service named after the project, with build/container_name/restart. -/
def composeBaseServices (service_name : String) : List (String × ComposeService) :=
  [(service_name,
    { build := some ".", container_name := some service_name,
      restart := some "unless-stopped" })]

/-- The port step of generate_docker_compose: add a ports entry to the
app service unless the framework is click. -/
def composePortsStage (framework service_name : String)
    (services : List (String × ComposeService)) : List (String × ComposeService) :=
  if framework ≠ "click" then
    modifyService service_name
      (fun s => { s with ports := some [composePortMapping framework] }) services
  else services

/-- The postgres service dict added by generate_docker_compose when the
spec requires a database. -/
def composeDbService (service_name : String) : ComposeService :=
  { image := some "postgres:15",
    container_name := some (service_name ++ "-db"),
    restart := some "unless-stopped",
    environment := some ["POSTGRES_DB=" ++ service_name, "POSTGRES_USER=user",
      "POSTGRES_PASSWORD=password"],
    volumes := some ["postgres_data:/var/lib/postgresql/data"],
    ports := some ["5432:5432"] }

/-- The database step of generate_docker_compose: when database_required,
give the app service a depends_on on db and a DATABASE_URL environment
entry, store the postgres service under the key "db", and declare the
named volume; returns the new services dict and the top-level volumes. -/
def composeDbStage (database_required : Bool) (service_name : String)
    (services : List (String × ComposeService)) :
    List (String × ComposeService) × Option (List String) :=
  if database_required then
    let services := modifyService service_name
      (fun s =>
        { s with depends_on := some ["db"],
                 environment :=
                   some ["DATABASE_URL=postgresql://user:password@db:5432/" ++ service_name] })
      services
    (setService "db" (composeDbService service_name) services, some ["postgres_data"])
  else (services, none)

/-- The redis step of generate_docker_compose: when the lower-cased
description mentions cache, session or redis, append "redis" to the app
service's depends_on (created as an empty list when absent) and store a
redis service under the key "redis". -/
def composeRedisStage (description service_name : String)
    (services : List (String × ComposeService)) : List (String × ComposeService) :=
  if containsSub (lowerStr description.data) "cache".data
      || containsSub (lowerStr description.data) "session".data
      || containsSub (lowerStr description.data) "redis".data then
    let services := modifyService service_name
      (fun s => { s with depends_on := some (s.depends_on.getD [] ++ ["redis"]) }) services
    setService "redis"
      { image := some "redis:7-alpine",
        container_name := some (service_name ++ "-redis"),
        restart := some "unless-stopped",
        ports := some ["6379:6379"] } services
  else services

/-- DockerManager.generate_docker_compose, modelled at the level of the
compose dict the source builds and mutates step by step (the final
yaml.dump call serialises this dict verbatim, one top-level key per
service). -/
def generate_docker_compose (spec : ApiSpec) : ComposeFile :=
  let service_name := replaceUnderscore spec.name
  let services := composeBaseServices service_name
  let services := composePortsStage spec.framework service_name services
  let p := composeDbStage spec.database_required service_name services
  let services := composeRedisStage spec.description service_name p.1
  { version := "3.8", services := services, volumes := p.2 }

end DockerUtils

/-- The Dockerfile text before the interpolated spec name, for the
default base image (a verification constant used to reason about the
line structure of generate_dockerfile's output). -/
def clickSeg1 : String := "FROM python:3.11-slim\n\n# Metadata\nLABEL maintainer=\""

/-- The Dockerfile text between the interpolated spec name and the
interpolated spec description. -/
def clickSeg2 : String := "\"\nLABEL description=\""

/-- The Dockerfile text after the interpolated spec description for a
click spec: the fixed body with no EXPOSE block, ending in the
ENTRYPOINT command. -/
def clickSeg3 : String := "\"\n\n# Set environment variables\nENV PYTHONUNBUFFERED=1\nENV PYTHONDONTWRITEBYTECODE=1\n\n# Set work directory\nWORKDIR /app\n\n# Install system dependencies\nRUN apt-get update && apt-get install -y \\\n    build-essential \\\n    curl \\\n    && rm -rf /var/lib/apt/lists/*\n\n# Copy requirements first for better caching\nCOPY requirements.txt .\n\n# Install Python dependencies\nRUN pip install --no-cache-dir -r requirements.txt\n\n# Copy application code\nCOPY . .\n\nENTRYPOINT [\"python\", \"cli.py\"]"

/-- The lines of the click Dockerfile after the description line (the
tail of the line split of clickSeg3). -/
def clickTailLines : List (List Char) :=
  [[], "# Set environment variables".data, "ENV PYTHONUNBUFFERED=1".data,
   "ENV PYTHONDONTWRITEBYTECODE=1".data, [], "# Set work directory".data,
   "WORKDIR /app".data, [], "# Install system dependencies".data,
   "RUN apt-get update && apt-get install -y \\".data, "    build-essential \\".data,
   "    curl \\".data, "    && rm -rf /var/lib/apt/lists/*".data, [],
   "# Copy requirements first for better caching".data, "COPY requirements.txt .".data,
   [], "# Install Python dependencies".data,
   "RUN pip install --no-cache-dir -r requirements.txt".data, [],
   "# Copy application code".data, "COPY . .".data, [],
   "ENTRYPOINT [\"python\", \"cli.py\"]".data]

/-! ### MCP integration, `src/text2api/core/mcp_integration.py` -/

namespace MCP

open Core

/-- The mutable state of an MCPIntegration instance (the server URL does
not influence any behaviour modelled here). -/
structure MCPState where
  enabled : Bool
  capabilities : List String
deriving DecidableEq, Repr

/-- The constructor state: enabled = False, capabilities = []. -/
def initState : MCPState := { enabled := false, capabilities := [] }

/-- MCPIntegration._check_mcp_availability: a stub that always reports
the enhancement server unavailable. -/
def check_mcp_availability : Bool := false

/-- MCPIntegration._get_mcp_capabilities (only ever called when the
availability check succeeded). -/
def get_mcp_capabilities : List String :=
  ["enhanced_nlp_analysis", "domain_specific_templates",
   "code_generation_optimization", "security_pattern_detection",
   "performance_recommendations"]

/-- MCPIntegration.initialize: store the availability check result in
enabled, fetch capabilities when enabled, return the new state and the
enabled flag. -/
def initializeMCP (st : MCPState) : MCPState × Bool :=
  let st := { st with enabled := check_mcp_availability }
  let st := if st.enabled then { st with capabilities := get_mcp_capabilities } else st
  (st, st.enabled)

/-- MCPIntegration.enhance_spec.  The guarded body (the four capability
passes of lines 56-71 and the broad exception handler around them) is
abstracted by the function argument `passes`; the theorems below hold
for every choice of `passes`, in particular for the real one. -/
def enhance_spec (passes : ApiSpec → ApiSpec) (st : MCPState) (spec : ApiSpec) : ApiSpec :=
  if !st.enabled then spec else passes spec

/-- States an MCPIntegration instance can actually be in: freshly
constructed, or after any number of initialize() calls. -/
inductive Reachable : MCPState → Prop
  | init : Reachable initState
  | step (st : MCPState) : Reachable st → Reachable (initializeMCP st).1

end MCP

/-! ### The dict-pipeline OpenAPI generator,
`src/src/text2api/generators/openapi_generator.py` and
`src/src/text2api/generators/base_generator.py`

The loosely typed api_spec dict of this pipeline is modelled by
SpecDict (key presence = isSome), and the JSON document by the value
type J. -/

namespace OpenAPIGen

/-- A JSON-ish value: string, boolean, array, or object with ordered
string keys. -/
inductive J
  | s (v : String)
  | b (v : Bool)
  | arr (vs : List J)
  | obj (fs : List (String × J))

/-- Python dict assignment d[k] = v on a J object field list. -/
def setKey (k : String) (v : J) : List (String × J) → List (String × J)
  | [] => [(k, v)]
  | (k2, v2) :: t => if k2 = k then (k, v) :: t else (k2, v2) :: setKey k v t

/-- Python dict lookup d.get(k) on a J object field list. -/
def getKey (k : String) : List (String × J) → Option J
  | [] => none
  | (k2, v) :: t => if k2 = k then some v else getKey k t

/-- Lookup of a key inside a J value (none on non-objects). -/
def getKeyJ (k : String) : J → Option J
  | .obj fs => getKey k fs
  | _ => none

/-- Fuel-bounded search for a field \x7b"$ref": target\x7d anywhere
inside a J value.  The fuel bounds the nesting depth only; every value
this development builds has depth well below the bound used, so the
bounded search is exact on them (and the bound keeps the definition
structurally recursive, hence kernel-evaluable). -/
def containsRefFuel (target : String) : Nat → J → Bool
  | 0, _ => false
  | _ + 1, .s _ => false
  | _ + 1, .b _ => false
  | fuel + 1, .arr vs => vs.any (containsRefFuel target fuel)
  | fuel + 1, .obj fs =>
    fs.any (fun kv =>
      (kv.1 == "$ref" && (match kv.2 with | .s v => v == target | _ => false))
        || containsRefFuel target fuel kv.2)

/-- Search for a schema reference with ample depth fuel. -/
def containsRefB (target : String) (j : J) : Bool := containsRefFuel target 100 j

/-- One entry of a model's field list in the dict pipeline: either a
bare string (the default Item model) or a dict with name and optional
type/required keys. -/
inductive OFieldSpec
  | plain (name : String)
  | record (name : String) (type? : Option String) (required? : Option Bool)
deriving DecidableEq, Repr

/-- One model dict: a mandatory name (read with direct indexing) and a
field list (read with .get). -/
structure OModel where
  name : String
  fields : List OFieldSpec
deriving DecidableEq, Repr

/-- The loosely typed api_spec dict, restricted to the keys this
generator reads. -/
structure SpecDict where
  name? : Option String := none
  description? : Option String := none
  models? : Option (List OModel) := none
deriving DecidableEq, Repr

/-- The default model substituted by _generate_models when the spec has
no models key. -/
def defaultItemModel : OModel :=
  { name := "Item", fields := [.plain "id", .plain "name", .plain "description"] }

/-- The name of a field entry (field["name"] for dicts, the string
itself otherwise). -/
def fieldName : OFieldSpec → String
  | .plain n => n
  | .record n _ _ => n

/-- The declared type of a field entry (field.get("type", "string") for
dicts, "string" otherwise). -/
def fieldType : OFieldSpec → String
  | .plain _ => "string"
  | .record _ t? _ => t?.getD "string"

/-- The type_mapping .get of _generate_models (default "string"). -/
def openapiType (lowered : String) : String :=
  if lowered = "str" then "string"
  else if lowered = "int" then "integer"
  else if lowered = "float" then "number"
  else if lowered = "bool" then "boolean"
  else if lowered = "datetime" then "string"
  else "string"

/-- The field_spec dict of _generate_models: the mapped type, plus a
format for date/datetime string fields. -/
def fieldSpecJ (ftype : String) : J :=
  let lowered : String := ⟨lowerStr ftype.data⟩
  let ot := openapiType lowered
  if ot = "string" ∧ (lowered = "date" ∨ lowered = "datetime") then
    J.obj [("type", J.s ot), ("format", J.s lowered)]
  else J.obj [("type", J.s ot)]

/-- One schema object of _generate_models: properties filled field by
field, required collecting the names of dict fields whose required
value is true. -/
def modelSchema (m : OModel) : J :=
  let pr := m.fields.foldl
    (fun (acc : List (String × J) × List String) f =>
      let props := setKey (fieldName f) (fieldSpecJ (fieldType f)) acc.1
      let req := match f with
        | .record n _ (some true) => acc.2 ++ [n]
        | _ => acc.2
      (props, req))
    ([], [])
  J.obj [("type", J.s "object"), ("properties", J.obj pr.1),
    ("required", J.arr (pr.2.map J.s))]

/-- OpenAPIGenerator._generate_models: substitute the default Item
model when the spec lacks a models key (mutating the stored spec), then
build the components object; returns the possibly mutated spec together
with the components. -/
def generate_models (spec : SpecDict) : SpecDict × J :=
  let spec := if spec.models?.isSome then spec
    else { spec with models? := some [defaultItemModel] }
  (spec,
   J.obj [("schemas",
     J.obj ((spec.models?.getD []).foldl (fun acc m => setKey m.name (modelSchema m) acc) []))])

/-- The schema reference object used throughout the paths. -/
def refJ (name : String) : J := J.obj [("$ref", J.s ("#/components/schemas/" ++ name))]

/-- The content dict wrapping a schema under application/json. -/
def jsonContent (schema : J) : J :=
  J.obj [("application/json", J.obj [("schema", schema)])]

/-- The collection-path operations (list and create) of
_generate_paths. -/
def collectionOpsJ (name : String) : J :=
  J.obj
    [("get", J.obj
      [("summary", J.s ("List all " ++ name ++ " items")),
       ("responses", J.obj
         [("200", J.obj
           [("description", J.s ("A list of " ++ name ++ " items")),
            ("content", jsonContent
              (J.obj [("type", J.s "array"), ("items", refJ name)]))])])]),
     ("post", J.obj
      [("summary", J.s ("Create a new " ++ name)),
       ("requestBody", J.obj
         [("required", J.b true), ("content", jsonContent (refJ name))]),
       ("responses", J.obj
         [("201", J.obj
           [("description", J.s ("Created " ++ name)),
            ("content", jsonContent (refJ name))])])])]

/-- The shared path-parameter list of the item operations. -/
def itemParamsJ (ml : String) : J :=
  J.arr [J.obj
    [("name", J.s (ml ++ "_id")), ("in", J.s "path"),
     ("required", J.b true), ("schema", J.obj [("type", J.s "string")])]]

/-- The item-path operations (get, put, delete) of _generate_paths; the
delete operation responds 204 with a bare description. -/
def itemOpsJ (name ml : String) : J :=
  J.obj
    [("get", J.obj
      [("summary", J.s ("Get a " ++ name ++ " by ID")),
       ("parameters", itemParamsJ ml),
       ("responses", J.obj
         [("200", J.obj
           [("description", J.s ("The " ++ name ++ " item")),
            ("content", jsonContent (refJ name))])])]),
     ("put", J.obj
      [("summary", J.s ("Update a " ++ name ++ " by ID")),
       ("parameters", itemParamsJ ml),
       ("requestBody", J.obj
         [("required", J.b true), ("content", jsonContent (refJ name))]),
       ("responses", J.obj
         [("200", J.obj
           [("description", J.s ("Updated " ++ name)),
            ("content", jsonContent (refJ name))])])]),
     ("delete", J.obj
      [("summary", J.s ("Delete a " ++ name ++ " by ID")),
       ("parameters", itemParamsJ ml),
       ("responses", J.obj
         [("204", J.obj [("description", J.s (name ++ " deleted"))])])])]

/-- OpenAPIGenerator._generate_paths: a collection path and an item
path per model. -/
def generate_paths (models : List OModel) : List (String × J) :=
  models.foldl (fun paths m =>
    let ml : String := ⟨lowerStr m.name.data⟩
    setKey ("/" ++ ml ++ "/\x7b" ++ ml ++ "_id\x7d") (itemOpsJ m.name ml)
      (setKey ("/" ++ ml) (collectionOpsJ m.name) paths))
    []

/-- The mutable state of a generator instance (BaseGenerator fields;
the template machinery does not influence the generated document). -/
structure GenState where
  output_dir : String
  project_name : String
  api_spec : SpecDict
deriving DecidableEq, Repr

/-- BaseGenerator.set_project_name: lower-case and replace spaces by
underscores. -/
def set_project_name (st : GenState) (name : String) : GenState :=
  { st with project_name :=
      ⟨(lowerStr name.data).map (fun c => if c = ' ' then '_' else c)⟩ }

/-- BaseGenerator.set_api_spec: store the given dict (the same object,
no copy). -/
def set_api_spec (st : GenState) (spec : SpecDict) : GenState :=
  { st with api_spec := spec }

/-- Python str.title(), modelled over ASCII: upper-case a letter that
does not follow a letter, lower-case the rest. -/
def pyTitleAux : Bool → List Char → List Char
  | _, [] => []
  | prevAlpha, c :: t =>
    (if isAsciiLetter c then (if prevAlpha then lowerChar c else Analyzer.upperChar c) else c)
      :: pyTitleAux (isAsciiLetter c) t

/-- The default document title: project_name.replace("_", " ").title(). -/
def defaultTitle (project_name : String) : String :=
  ⟨pyTitleAux false (project_name.data.map (fun c => if c = '_' then ' ' else c))⟩

/-- The in-memory openapi_spec dict assembled by generate (the final
json.dump to openapi.json serialises it verbatim; file writing is I/O
outside this model). -/
structure OpenApiDoc where
  openapi : String
  title : String
  description : String
  version : String
  paths : List (String × J)
  components : J

/-- OpenAPIGenerator.generate: fail on an unset project name, run
_generate_models (which may mutate the stored spec), then _generate_paths
over the stored spec's models, and assemble the document.  Returns the
final generator state together with the document. -/
def generate (st : GenState) : Except String (GenState × OpenApiDoc) :=
  if st.project_name = "" then
    .error "ValueError: Project name must be set before generating OpenAPI spec"
  else
    let p := generate_models st.api_spec
    let st := { st with api_spec := p.1 }
    let paths := generate_paths (st.api_spec.models?.getD [])
    .ok (st,
      { openapi := "3.0.0",
        title := st.api_spec.name?.getD (defaultTitle st.project_name),
        description := st.api_spec.description?.getD "",
        version := "1.0.0",
        paths := paths,
        components := p.2 })

/-- The api_spec of C7's scenario: a single Item model with a required
name field and an optional description field. -/
def itemSpecDict : SpecDict :=
  { name? := some "Item API", description? := some "",
    models? := some [{ name := "Item",
                       fields := [.record "name" (some "str") (some true),
                                  .record "description" (some "str") (some false)] }] }

/-- A generator state holding the Item spec with a project name set. -/
def itemState : GenState :=
  { output_dir := "generated_apis", project_name := "item_api", api_spec := itemSpecDict }

/-- A generator state whose spec lacks the models key. -/
def noModelsState : GenState :=
  { output_dir := "generated_apis", project_name := "proj", api_spec := {} }

end OpenAPIGen

/-! ### Concrete inputs used by witnesses and counterexamples -/

/-- `true` when the list contains no newline character. -/
def noNl (l : List Char) : Bool := l.all (fun c => !(c == '\n'))

/-- A small concrete REST ApiSpec. -/
def exampleRestSpec : Core.ApiSpec :=
  { name := "user_api", description := "User management API",
    api_type := Core.ApiType.rest, base_path := "/api/v1",
    endpoints := [], models := [], database_required := true }

/-- A small concrete click ApiSpec. -/
def exampleClickSpec : Core.ApiSpec :=
  { name := "tool", description := "A small command line tool",
    api_type := Core.ApiType.cli, base_path := "/api/v1",
    endpoints := [], models := [], framework := "click" }

/-- A click ApiSpec whose name smuggles a newline followed by an EXPOSE
instruction into the generated Dockerfile. -/
def injectionClickSpec : Core.ApiSpec :=
  { name := "x\nEXPOSE 80\ny", description := "A small command line tool",
    api_type := Core.ApiType.cli, base_path := "/api/v1",
    endpoints := [], models := [], framework := "click" }

/-- A database-backed ApiSpec whose project name is literally "db", so
the generated compose postgres service overwrites the app service. -/
def dbNamedSpec : Core.ApiSpec :=
  { name := "db", description := "Item store",
    api_type := Core.ApiType.rest, base_path := "/api/v1",
    endpoints := [], models := [], database_required := true }

/-! ## Theorems -/

/-! ### Generic lemmas about the string utilities -/

theorem noTwo_tail {c a : Char} {l : List Char} (h : noTwo c (a :: l) = true) :
    noTwo c l = true := by
  cases l with
  | nil => rfl
  | cons b t => simp only [noTwo, Bool.and_eq_true] at h; exact h.2

theorem noTwo_cons_of_ne {c a : Char} {l : List Char} (ha : (a == c) = false)
    (h : noTwo c l = true) : noTwo c (a :: l) = true := by
  cases l with
  | nil => rfl
  | cons b t => simp only [noTwo, Bool.and_eq_true]; exact ⟨by simp [ha], h⟩

theorem noTwo_cons_of_head {c : Char} {l : List Char} (h : noTwo c l = true)
    (hh : ∀ b, l.head? = some b → (b == c) = false) : noTwo c (c :: l) = true := by
  cases l with
  | nil => rfl
  | cons b t =>
    simp only [noTwo, Bool.and_eq_true]
    refine ⟨?_, h⟩
    have := hh b rfl
    simp [this]

theorem noTwo_append_right {c : Char} {xs ys : List Char}
    (h : noTwo c (xs ++ ys) = true) : noTwo c ys = true := by
  induction xs with
  | nil => exact h
  | cons x xs ih => exact ih (noTwo_tail h)

theorem noTwo_append_left {c : Char} {xs ys : List Char}
    (h : noTwo c (xs ++ ys) = true) : noTwo c xs = true := by
  induction xs with
  | nil => rfl
  | cons x xs ih =>
    cases xs with
    | nil => rfl
    | cons y t =>
      simp only [List.cons_append, noTwo, Bool.and_eq_true] at h ⊢
      exact ⟨h.1, ih h.2⟩

theorem noTwo_of_infix {c : Char} {l₁ l₂ : List Char} (h : l₁ <:+: l₂)
    (h2 : noTwo c l₂ = true) : noTwo c l₁ = true := by
  obtain ⟨s, t, rfl⟩ := h
  rw [List.append_assoc] at h2
  exact noTwo_append_left (noTwo_append_right h2)

theorem mem_collapseRuns {p : Char → Bool} {rep x : Char} :
    ∀ {l : List Char}, x ∈ collapseRuns p rep l → x = rep ∨ (x ∈ l ∧ p x = false) := by
  intro l
  induction l with
  | nil => intro h; simp [collapseRuns] at h
  | cons a t ih =>
    cases t with
    | nil =>
      intro h
      simp only [collapseRuns] at h
      by_cases hp : p a = true
      · rw [if_pos hp] at h
        exact Or.inl (by simpa using h)
      · have hp' : p a = false := by simpa using hp
        rw [if_neg (by simp [hp'])] at h
        have hx : x = a := by simpa using h
        exact Or.inr ⟨by simp [hx], by rw [hx]; exact hp'⟩
    | cons b t' =>
      intro h
      simp only [collapseRuns] at h
      by_cases hpa : p a = true
      · by_cases hpb : p b = true
        · rw [if_pos hpa, if_pos hpb] at h
          rcases ih h with h' | h'
          · exact Or.inl h'
          · exact Or.inr ⟨List.mem_cons_of_mem a h'.1, h'.2⟩
        · have hpb' : p b = false := by simpa using hpb
          rw [if_pos hpa, if_neg (by simp [hpb'])] at h
          rcases List.mem_cons.mp h with h' | h'
          · exact Or.inl h'
          · rcases ih h' with h'' | h''
            · exact Or.inl h''
            · exact Or.inr ⟨List.mem_cons_of_mem a h''.1, h''.2⟩
      · have hpa' : p a = false := by simpa using hpa
        rw [if_neg (by simp [hpa'])] at h
        rcases List.mem_cons.mp h with h' | h'
        · exact Or.inr ⟨by simp [h'], by rw [h']; exact hpa'⟩
        · rcases ih h' with h'' | h''
          · exact Or.inl h''
          · exact Or.inr ⟨List.mem_cons_of_mem a h''.1, h''.2⟩

theorem head?_collapseRuns_of_not (p : Char → Bool) (rep b : Char) (t : List Char)
    (hb : p b = false) : (collapseRuns p rep (b :: t)).head? = some b := by
  cases t with
  | nil => simp [collapseRuns, hb]
  | cons u v => simp [collapseRuns, hb]

theorem noTwo_collapseRuns (rep : Char) :
    ∀ (l : List Char), noTwo rep (collapseRuns (· == rep) rep l) = true := by
  intro l
  induction l with
  | nil => rfl
  | cons a t ih =>
    cases t with
    | nil =>
      by_cases hp : (a == rep) = true
      · simp [collapseRuns, hp, noTwo]
      · have hp' : (a == rep) = false := by simpa using hp
        simp [collapseRuns, hp', noTwo]
    | cons b t' =>
      simp only [collapseRuns]
      by_cases hpa : (a == rep) = true
      · by_cases hpb : (b == rep) = true
        · rw [if_pos hpa, if_pos hpb]; exact ih
        · have hpb' : (b == rep) = false := by simpa using hpb
          rw [if_pos hpa, if_neg (by simp [hpb'])]
          refine noTwo_cons_of_head ih ?_
          intro x hx
          rw [head?_collapseRuns_of_not (fun x => x == rep) rep b t' hpb'] at hx
          have hbx : b = x := by simpa using hx
          rw [← hbx]
          exact hpb'
      · have hpa' : (a == rep) = false := by simpa using hpa
        rw [if_neg (by simp [hpa'])]
        exact noTwo_cons_of_ne hpa' ih

/-! ### C2 helper lemmas -/

namespace Validation

theorem mem_sanitize_chars {x : Char} {filename : List Char}
    (h : x ∈ sanitize_filename filename) :
    isDangerous x = false ∧ isPyWs x = false := by
  simp only [sanitize_filename] at h
  split at h
  · -- the "unnamed" default
    have h' : x ∈ ['u', 'n', 'n', 'a', 'm', 'e', 'd'] := h
    simp only [List.mem_cons, List.not_mem_nil, or_false] at h'
    rcases h' with rfl | rfl | rfl | rfl | rfl | rfl | rfl <;> exact ⟨by decide, by decide⟩
  · -- the stripped pipeline output
    have h3 : x ∈ collapseRuns (· == '_') '_'
        (collapseRuns isPyWs '_' (filename.filter (fun c => !(isDangerous c)))) := by
      refine List.Sublist.subset ?_ h
      exact List.Sublist.trans
        (List.IsPrefix.sublist (List.rdropWhile_prefix _ _))
        (List.IsSuffix.sublist (List.dropWhile_suffix _))
    have hx2 : x = '_' ∨ x ∈ collapseRuns isPyWs '_'
        (filename.filter (fun c => !(isDangerous c))) := by
      rcases mem_collapseRuns h3 with h' | h'
      · exact Or.inl h'
      · exact Or.inr h'.1
    have hx1 : isDangerous x = false ∧ isPyWs x = false := by
      rcases hx2 with h' | h'
      · subst h'; exact ⟨rfl, rfl⟩
      · rcases mem_collapseRuns h' with h'' | h''
        · subst h''; exact ⟨rfl, rfl⟩
        · have hf := List.mem_filter.mp h''.1
          refine ⟨by simpa using hf.2, h''.2⟩
    exact hx1

end Validation

/-- C2: for every input string, sanitize_filename returns a string free of
the dangerous characters and of whitespace, with no two adjacent
underscores, nonempty, neither starting nor ending with an underscore,
and equal to "unnamed" when the input reduces to the empty string. -/
theorem C2_sanitize_filename (filename : List Char) :
    ((Validation.sanitize_filename filename).all
        (fun c => !(Validation.isDangerous c) && !(isPyWs c)) = true)
    ∧ (noTwo '_' (Validation.sanitize_filename filename) = true)
    ∧ ((Validation.sanitize_filename filename).isEmpty = false)
    ∧ ((Validation.sanitize_filename filename).head?.any (· == '_') = false)
    ∧ ((Validation.sanitize_filename filename).getLast?.any (· == '_') = false)
    ∧ (Validation.sanitize_filename [] = "unnamed".data) := by
  refine ⟨?_, ?_, ?_, ?_, ?_, by decide⟩
  · rw [List.all_eq_true]
    intro x hx
    have := Validation.mem_sanitize_chars hx
    simp [this.1, this.2]
  · simp only [Validation.sanitize_filename]
    split
    · decide
    · set z := collapseRuns (· == '_') '_'
        (collapseRuns isPyWs '_'
          (List.filter (fun c => !Validation.isDangerous c) filename)) with hz
      refine noTwo_of_infix ?_ (noTwo_collapseRuns '_'
        (collapseRuns isPyWs '_'
          (List.filter (fun c => !Validation.isDangerous c) filename)))
      rw [← hz, stripChar]
      exact List.IsInfix.trans
        (List.IsPrefix.isInfix (List.rdropWhile_prefix _ _))
        (List.IsSuffix.isInfix (List.dropWhile_suffix _))
  · simp only [Validation.sanitize_filename]
    split
    · decide
    · rename_i hne
      simpa using hne
  · simp only [Validation.sanitize_filename]
    split
    · decide
    · rename_i hne
      set z := collapseRuns (· == '_') '_'
        (collapseRuns isPyWs '_'
          (List.filter (fun c => !Validation.isDangerous c) filename)) with hz
      have hne' : stripChar '_' z ≠ [] := by simpa using hne
      rw [stripChar] at hne' ⊢
      set r1 := z.dropWhile (· == '_') with hr1
      have hpre : r1.rdropWhile (· == '_') <+: r1 := List.rdropWhile_prefix _ _
      have hr1ne : r1 ≠ [] := by
        intro hcon
        rw [hcon, List.rdropWhile_nil] at hne'
        exact hne' rfl
      have hhead := List.IsPrefix.head hpre hne'
      have hnot := List.head_dropWhile_not (· == '_') z (by rw [← hr1]; exact hr1ne)
      rw [List.head?_eq_head hne', Option.any_some, hhead]
      exact hnot
  · simp only [Validation.sanitize_filename]
    split
    · decide
    · rename_i hne
      set z := collapseRuns (· == '_') '_'
        (collapseRuns isPyWs '_'
          (List.filter (fun c => !Validation.isDangerous c) filename)) with hz
      have hne' : stripChar '_' z ≠ [] := by simpa using hne
      rw [stripChar] at hne' ⊢
      have hlast := List.rdropWhile_last_not (· == '_') (z.dropWhile (· == '_')) hne'
      rw [List.getLast?_eq_getLast _ hne', Option.any_some]
      simpa using hlast

/-! ### C10 -/

theorem dedupFirst_chain (b1 b2 b3 b4 b5 : Bool) :
    dedupFirst
      (let o0 : List String := ["create", "read", "update", "delete", "list"]
       let o1 := if b1 then o0 ++ ["list"] else o0
       let o2 := if b2 then o1 ++ ["create"] else o1
       let o3 := if b3 then o2 ++ ["read"] else o2
       let o4 := if b4 then o3 ++ ["update"] else o3
       if b5 then o4 ++ ["delete"] else o4)
      = ["create", "read", "update", "delete", "list"] := by
  revert b1 b2 b3 b4 b5
  decide

/-! ### C3: the MCP enhancement pass is a no-op -/

theorem MCP_reachable_not_enabled {st : MCP.MCPState} (h : MCP.Reachable st) :
    st.enabled = false := by
  induction h with
  | init => rfl
  | step st' _ _ => rfl

/-- C3: for every reachable state of an MCPIntegration instance (freshly
constructed or after any number of initialize calls) and every choice of
the guarded enhancement passes, enhance_spec returns its input ApiSpec
unchanged: the availability stub keeps the pass disabled. -/
theorem C3_enhance_spec_identity (st : MCP.MCPState) (h : MCP.Reachable st)
    (passes : Core.ApiSpec → Core.ApiSpec) (spec : Core.ApiSpec) :
    MCP.enhance_spec passes st spec = spec := by
  have he : st.enabled = false := MCP_reachable_not_enabled h
  simp [MCP.enhance_spec, he]

/-- Witness for C3 at the freshly constructed state and a concrete
spec. -/
theorem C3_enhance_spec_identity_witness :
    MCP.enhance_spec id MCP.initState exampleRestSpec = exampleRestSpec :=
  C3_enhance_spec_identity MCP.initState MCP.Reachable.init id exampleRestSpec

/-! ### C5: compose database wiring -/

namespace DockerUtils

theorem lookupService_setService_self (k : String) (v : ComposeService) :
    ∀ (l : List (String × ComposeService)),
      lookupService k (setService k v l) = some v := by
  intro l
  induction l with
  | nil => simp [setService, lookupService]
  | cons hd t ih =>
    obtain ⟨k2, v2⟩ := hd
    simp only [setService]
    by_cases hk : k2 = k
    · simp [lookupService, hk]
    · simp only [if_neg hk, lookupService]
      exact ih

theorem lookupService_setService_ne (k k' : String) (hk : k ≠ k') (v : ComposeService) :
    ∀ (l : List (String × ComposeService)),
      lookupService k' (setService k v l) = lookupService k' l := by
  intro l
  induction l with
  | nil => simp [setService, lookupService, hk]
  | cons hd t ih =>
    obtain ⟨k2, v2⟩ := hd
    simp only [setService]
    by_cases hk2 : k2 = k
    · subst hk2
      simp [lookupService, hk]
    · simp only [if_neg hk2, lookupService]
      by_cases hk' : k2 = k'
      · simp [hk']
      · simp only [if_neg hk']
        exact ih

theorem lookupService_modifyService_self (k : String) (f : ComposeService → ComposeService) :
    ∀ (l : List (String × ComposeService)),
      lookupService k (modifyService k f l) = (lookupService k l).map f := by
  intro l
  induction l with
  | nil => simp [modifyService, lookupService]
  | cons hd t ih =>
    obtain ⟨k2, v2⟩ := hd
    simp only [modifyService]
    by_cases hk : k2 = k
    · subst hk
      simp [lookupService]
    · simp only [if_neg hk, lookupService]
      exact ih

theorem lookupService_modifyService_ne (k k' : String) (hk : k ≠ k')
    (f : ComposeService → ComposeService) :
    ∀ (l : List (String × ComposeService)),
      lookupService k' (modifyService k f l) = lookupService k' l := by
  intro l
  induction l with
  | nil => simp [modifyService]
  | cons hd t ih =>
    obtain ⟨k2, v2⟩ := hd
    simp only [modifyService]
    by_cases hk2 : k2 = k
    · subst hk2
      simp only [lookupService]
      rw [if_neg hk, if_neg hk]
    · simp only [if_neg hk2, lookupService]
      by_cases hk' : k2 = k'
      · simp [hk']
      · simp only [if_neg hk']
        exact ih

theorem composePorts_shape (fw sn : String) :
    ∃ app : ComposeService,
      composePortsStage fw sn (composeBaseServices sn) = [(sn, app)]
      ∧ app.image = none ∧ app.depends_on = none ∧ app.environment = none := by
  by_cases hfw : fw = "click"
  · exact ⟨{ build := some ".", container_name := some sn, restart := some "unless-stopped" },
      by simp [composePortsStage, hfw, composeBaseServices], rfl, rfl, rfl⟩
  · exact ⟨{ build := some ".", container_name := some sn, restart := some "unless-stopped",
             ports := some [composePortMapping fw] },
      by simp [composePortsStage, hfw, composeBaseServices, modifyService], rfl, rfl, rfl⟩

theorem compose_wiring_core (desc : String) (dbreq : Bool) (sn : String)
    (app : ComposeService) (himg : app.image = none) :
    ((lookupService "db"
        (composeRedisStage desc sn (composeDbStage dbreq sn [(sn, app)]).1)).bind
          (fun s => s.image) = some "postgres:15" ↔ dbreq = true)
    ∧ (dbreq = true → sn ≠ "db" → sn ≠ "redis" →
        ∃ svc, lookupService sn
            (composeRedisStage desc sn (composeDbStage dbreq sn [(sn, app)]).1) = some svc
          ∧ "db" ∈ svc.depends_on.getD []
          ∧ svc.environment =
              some ["DATABASE_URL=postgresql://user:password@db:5432/" ++ sn]) := by
  cases dbreq with
  | false =>
    refine ⟨?_, by intro h; cases h⟩
    cases hc : (containsSub (lowerStr desc.data) "cache".data
        || containsSub (lowerStr desc.data) "session".data
        || containsSub (lowerStr desc.data) "redis".data) with
    | false =>
      by_cases hsndb : sn = "db"
      · subst hsndb
        simp [composeDbStage, composeRedisStage, hc, lookupService, himg]
      · simp [composeDbStage, composeRedisStage, hc, lookupService, hsndb, Ne.symm hsndb]
    | true =>
      by_cases hsndb : sn = "db"
      · subst hsndb
        simp [composeDbStage, composeRedisStage, hc, modifyService, setService,
          lookupService, himg]
      · by_cases hsnredis : sn = "redis"
        · subst hsnredis
          simp [composeDbStage, composeRedisStage, hc, modifyService, setService,
            lookupService, himg, hsndb]
        · simp [composeDbStage, composeRedisStage, hc, modifyService, setService,
            lookupService, hsndb, Ne.symm hsndb, hsnredis, Ne.symm hsnredis, himg]
  | true =>
    constructor
    · cases hc : (containsSub (lowerStr desc.data) "cache".data
          || containsSub (lowerStr desc.data) "session".data
          || containsSub (lowerStr desc.data) "redis".data) with
      | false =>
        by_cases hsndb : sn = "db"
        · subst hsndb
          simp [composeDbStage, composeRedisStage, hc, modifyService, setService,
            lookupService, composeDbService]
        · simp [composeDbStage, composeRedisStage, hc, modifyService, setService,
            lookupService, hsndb, Ne.symm hsndb, composeDbService]
      | true =>
        by_cases hsndb : sn = "db"
        · subst hsndb
          simp [composeDbStage, composeRedisStage, hc, modifyService, setService,
            lookupService, composeDbService]
        · by_cases hsnredis : sn = "redis"
          · subst hsnredis
            simp [composeDbStage, composeRedisStage, hc, modifyService, setService,
              lookupService, hsndb, Ne.symm hsndb, composeDbService]
          · simp [composeDbStage, composeRedisStage, hc, modifyService, setService,
              lookupService, hsndb, Ne.symm hsndb, hsnredis, Ne.symm hsnredis,
              composeDbService]
    · intro _ hsndb hsnredis
      cases hc : (containsSub (lowerStr desc.data) "cache".data
          || containsSub (lowerStr desc.data) "session".data
          || containsSub (lowerStr desc.data) "redis".data) with
      | false =>
        refine ⟨{ app with depends_on := some ["db"],
                           environment :=
                             some ["DATABASE_URL=postgresql://user:password@db:5432/" ++ sn] },
          ?_, by simp, by simp⟩
        simp [composeDbStage, composeRedisStage, hc, modifyService, setService,
          lookupService, hsndb, Ne.symm hsndb]
      | true =>
        refine ⟨{ app with depends_on := some ["db", "redis"],
                           environment :=
                             some ["DATABASE_URL=postgresql://user:password@db:5432/" ++ sn] },
          ?_, by simp, by simp⟩
        simp [composeDbStage, composeRedisStage, hc, modifyService, setService,
          lookupService, hsndb, Ne.symm hsndb, hsnredis, Ne.symm hsnredis]

end DockerUtils

open DockerUtils in
/-- C5 (amended): the compose dict built by generate_docker_compose has
a db service whose image is postgres:15 exactly when the spec requires a
database; and — provided the derived service name is neither "db" nor
"redis", since those project names make the later dict assignments
overwrite the app entry — a database-requiring spec's app service gains
a depends_on entry on db and the DATABASE_URL environment variable. -/
theorem C5_compose_database_wiring (spec : Core.ApiSpec) :
    (((lookupService "db" (generate_docker_compose spec).services).bind
        (fun s => s.image)) = some "postgres:15" ↔ spec.database_required = true)
    ∧ (spec.database_required = true →
        replaceUnderscore spec.name ≠ "db" →
        replaceUnderscore spec.name ≠ "redis" →
        ∃ svc, lookupService (replaceUnderscore spec.name)
            (generate_docker_compose spec).services = some svc
          ∧ "db" ∈ svc.depends_on.getD []
          ∧ svc.environment = some ["DATABASE_URL=postgresql://user:password@db:5432/"
              ++ replaceUnderscore spec.name]) := by
  obtain ⟨app, happ, himg, hdep, henv⟩ :=
    composePorts_shape spec.framework (replaceUnderscore spec.name)
  have hgen : (generate_docker_compose spec).services =
      composeRedisStage spec.description (replaceUnderscore spec.name)
        (composeDbStage spec.database_required (replaceUnderscore spec.name)
          (composePortsStage spec.framework (replaceUnderscore spec.name)
            (composeBaseServices (replaceUnderscore spec.name)))).1 := rfl
  rw [hgen, happ]
  exact compose_wiring_core spec.description spec.database_required
    (replaceUnderscore spec.name) app himg

/-- Counterexample to C5 as stated: for the database-requiring spec whose
project name is literally "db", the postgres dict assignment overwrites
the app service, so no service carries the depends_on/DATABASE_URL
wiring the claim promises. -/
theorem C5_counterexample :
    dbNamedSpec.database_required = true
    ∧ (∀ p ∈ (DockerUtils.generate_docker_compose dbNamedSpec).services,
        p.2.depends_on = none) := by
  constructor
  · rfl
  · decide

open DockerUtils in
/-- Witness for C5: the amended wiring conclusion holds at a concrete
database-requiring spec. -/
theorem C5_compose_database_wiring_witness :
    (((lookupService "db" (generate_docker_compose exampleRestSpec).services).bind
        (fun s => s.image)) = some "postgres:15" ↔ exampleRestSpec.database_required = true)
    ∧ (∃ svc, lookupService (replaceUnderscore exampleRestSpec.name)
            (generate_docker_compose exampleRestSpec).services = some svc
          ∧ "db" ∈ svc.depends_on.getD []
          ∧ svc.environment = some ["DATABASE_URL=postgresql://user:password@db:5432/"
              ++ replaceUnderscore exampleRestSpec.name]) :=
  ⟨(C5_compose_database_wiring exampleRestSpec).1,
    (C5_compose_database_wiring exampleRestSpec).2 rfl (by decide) (by decide)⟩

/-- C10: SpecExtractor._extract_operations always returns exactly the
default five-element list ["create", "read", "update", "delete", "list"],
independently of the input text: keyword matches only re-append members
of the default set, and first-seen-order de-duplication restores it. -/
theorem C10_extract_operations_constant (text : List Char) :
    SpecExtractor.extract_operations text
      = ["create", "read", "update", "delete", "list"] := by
  simp only [SpecExtractor.extract_operations]
  exact dedupFirst_chain _ _ _ _ _


/-! ### Line-structure lemmas for the Dockerfile text (C4) -/

theorem splitLines_ne_nil (l : List Char) : splitLines l ≠ [] := by
  cases l with
  | nil => simp [splitLines]
  | cons c t =>
    by_cases hc : c = '\n'
    · simp [splitLines, hc]
    · rcases h : splitLines t with _ | ⟨h1, r⟩ <;> simp [splitLines, hc, h]

theorem splitLines_cons_nl (t : List Char) :
    splitLines ('\n' :: t) = [] :: splitLines t := by
  simp [splitLines]

theorem splitLines_cons_ne {c : Char} (hc : ¬ c = '\n') (t : List Char) :
    splitLines (c :: t) = (c :: (splitLines t).headI) :: (splitLines t).tail := by
  rcases h : splitLines t with _ | ⟨h1, r⟩
  · exact absurd h (splitLines_ne_nil t)
  · simp [splitLines, hc, h]

theorem splitLines_noNl_append : ∀ (l : List Char), noNl l = true → ∀ (ys : List Char),
    splitLines (l ++ ys) = (l ++ (splitLines ys).headI) :: (splitLines ys).tail := by
  intro l
  induction l with
  | nil =>
    intro _ ys
    rcases h : splitLines ys with _ | ⟨h1, r⟩
    · exact absurd h (splitLines_ne_nil ys)
    · simp [h]
  | cons c t ih =>
    intro h ys
    rw [noNl, List.all_cons, Bool.and_eq_true] at h
    obtain ⟨hc, ht⟩ := h
    have hc' : ¬ c = '\n' := by simpa using hc
    rw [List.cons_append, splitLines_cons_ne hc', ih ht ys]
    simp

theorem mem_splitLines_after_nl : ∀ (a : List Char) {l : List Char}, noNl l = true →
    ∀ (y : List Char), l ∈ (splitLines (a ++ '\n' :: (l ++ '\n' :: y))).tail := by
  intro a
  induction a with
  | nil =>
    intro l hl y
    rw [List.nil_append, splitLines_cons_nl, List.tail_cons,
      splitLines_noNl_append l hl ('\n' :: y), splitLines_cons_nl]
    simp
  | cons c a' ih =>
    intro l hl y
    by_cases hc : c = '\n'
    · subst hc
      rw [List.cons_append, splitLines_cons_nl, List.tail_cons]
      exact List.mem_of_mem_tail (ih hl y)
    · rw [List.cons_append, splitLines_cons_ne hc, List.tail_cons]
      exact ih hl y

theorem mem_splitLines_embedded (a : List Char) {l : List Char} (hl : noNl l = true)
    (y : List Char) : l ∈ splitLines (a ++ '\n' :: (l ++ '\n' :: y)) :=
  List.mem_of_mem_tail (mem_splitLines_after_nl a hl y)

theorem splitLines_append_cons : ∀ (xs ys : List Char),
    ∃ pre mid, splitLines xs = pre ++ [mid]
      ∧ splitLines (xs ++ ys) =
          pre ++ (mid ++ (splitLines ys).headI) :: (splitLines ys).tail := by
  intro xs
  induction xs with
  | nil =>
    intro ys
    refine ⟨[], [], by simp [splitLines], ?_⟩
    rcases h : splitLines ys with _ | ⟨h1, r⟩
    · exact absurd h (splitLines_ne_nil ys)
    · simp [h]
  | cons c t ih =>
    intro ys
    by_cases hc : c = '\n'
    · subst hc
      obtain ⟨pre, mid, h1, h2⟩ := ih ys
      exact ⟨[] :: pre, mid, by rw [splitLines_cons_nl, h1]; rfl,
        by rw [List.cons_append, splitLines_cons_nl, h2]; rfl⟩
    · obtain ⟨pre, mid, h1, h2⟩ := ih ys
      cases pre with
      | nil =>
        refine ⟨[], c :: mid, ?_, ?_⟩
        · rw [splitLines_cons_ne hc, h1]
          simp
        · rw [List.cons_append, splitLines_cons_ne hc, h2]
          simp
      | cons p0 ps =>
        refine ⟨(c :: p0) :: ps, mid, ?_, ?_⟩
        · rw [splitLines_cons_ne hc, h1]
          simp
        · rw [List.cons_append, splitLines_cons_ne hc, h2]
          simp


open DockerUtils in
theorem click_dockerfile_shape (spec : Core.ApiSpec) (hfw : spec.framework = "click") :
    (generate_dockerfile spec "python:3.11-slim").data
      = clickSeg1.data ++ (spec.name.data
          ++ (clickSeg2.data ++ (spec.description.data ++ clickSeg3.data))) := by
  have hgen : generate_dockerfile spec "python:3.11-slim"
      = dockerfileHeader spec "python:3.11-slim"
        ++ dockerfileExpose (dockerfilePort spec.framework)
        ++ dockerfileCmd spec.framework := rfl
  have hport : dockerfilePort "click" = none := by decide
  have hcmd : dockerfileCmd "click" = "ENTRYPOINT [\"python\", \"cli.py\"]" := by decide
  rw [hgen, hfw, hport, hcmd, dockerfileHeader]
  simp only [String.data_append, List.append_assoc]
  have e1 : ∀ X : List Char,
      "FROM ".data ++ ("python:3.11-slim".data
        ++ ("\n\n# Metadata\nLABEL maintainer=\"".data ++ X)) = clickSeg1.data ++ X := by
    intro X
    rw [← List.append_assoc, ← List.append_assoc]
    congr 1
  have e2 : ∀ X : List Char,
      "\"\nLABEL description=\"".data ++ X = clickSeg2.data ++ X := by
    intro X
    congr 1
  rw [e1, e2]
  exact congrArg (clickSeg1.data ++ ·)
    (congrArg (spec.name.data ++ ·)
      (congrArg (clickSeg2.data ++ ·)
        (congrArg (spec.description.data ++ ·) (by decide))))


open DockerUtils in
theorem click_dockerfile_lines (spec : Core.ApiSpec) (hfw : spec.framework = "click")
    (hn : noNl spec.name.data = true) (hd : noNl spec.description.data = true) :
    splitLines (generate_dockerfile spec "python:3.11-slim").data
      = ["FROM python:3.11-slim".data, [], "# Metadata".data]
        ++ ("LABEL maintainer=\"".data ++ (spec.name.data ++ "\"".data))
        :: ("LABEL description=\"".data ++ (spec.description.data ++ "\"".data))
        :: clickTailLines := by
  rw [click_dockerfile_shape spec hfw]
  -- innermost: the description segment
  have h3 : splitLines (spec.description.data ++ clickSeg3.data)
      = (spec.description.data ++ "\"".data) :: clickTailLines := by
    rw [splitLines_noNl_append spec.description.data hd clickSeg3.data]
    have : splitLines clickSeg3.data = "\"".data :: clickTailLines := by decide
    rw [this]
    rfl
  -- the clickSeg2 segment
  obtain ⟨pre2, mid2, h21, h22⟩ :=
    splitLines_append_cons clickSeg2.data (spec.description.data ++ clickSeg3.data)
  have hs2 : splitLines clickSeg2.data = ["\"".data, "LABEL description=\"".data] := by decide
  have hpre2 : pre2 = ["\"".data] := by
    rw [hs2] at h21
    have := congrArg List.dropLast h21
    simpa [List.dropLast_concat] using this.symm
  have hmid2 : mid2 = "LABEL description=\"".data := by
    rw [hs2] at h21
    have := congrArg List.getLast? h21
    rw [List.getLast?_concat] at this
    simpa using this.symm
  rw [hpre2, hmid2, h3] at h22
  -- the name segment
  have h1 : splitLines (spec.name.data
      ++ (clickSeg2.data ++ (spec.description.data ++ clickSeg3.data)))
      = (spec.name.data ++ "\"".data)
        :: ("LABEL description=\"".data ++ (spec.description.data ++ "\"".data))
        :: clickTailLines := by
    rw [splitLines_noNl_append spec.name.data hn, h22]
    simp
  -- the clickSeg1 segment
  obtain ⟨pre1, mid1, h11, h12⟩ :=
    splitLines_append_cons clickSeg1.data
      (spec.name.data ++ (clickSeg2.data ++ (spec.description.data ++ clickSeg3.data)))
  have hs1 : splitLines clickSeg1.data
      = ["FROM python:3.11-slim".data, [], "# Metadata".data, "LABEL maintainer=\"".data] := by
    decide
  have hpre1 : pre1 = ["FROM python:3.11-slim".data, [], "# Metadata".data] := by
    rw [hs1] at h11
    have := congrArg List.dropLast h11
    simpa [List.dropLast_concat] using this.symm
  have hmid1 : mid1 = "LABEL maintainer=\"".data := by
    rw [hs1] at h11
    have := congrArg List.getLast? h11
    rw [List.getLast?_concat] at this
    simpa using this.symm
  rw [hpre1, hmid1, h1] at h12
  rw [h12]
  simp


/-- C8: for every input text whose cleaned form is shorter than 10
characters, detect_language returns "en", whatever the statistical
detector would have said. -/
theorem C8_short_text_default (statistical : List Char → String) (text : List Char)
    (h : (LanguageDetector.clean_text text).length < 10) :
    LanguageDetector.detect_language statistical text = "en" := by
  rw [LanguageDetector.detect_language]
  exact if_pos h

/-- Witness for C8 at a concrete 9-character input and a statistical
detector that would have answered differently. -/
theorem C8_short_text_default_witness :
    (LanguageDetector.clean_text "Hi there!".data).length < 10
    ∧ LanguageDetector.detect_language (fun _ => "pl") "Hi there!".data = "en" :=
  ⟨by decide, C8_short_text_default (fun _ => "pl") "Hi there!".data (by decide)⟩

theorem expose_not_prefix_L (z : List Char) : ¬ ("EXPOSE".data <+: 'L' :: z) := by
  intro h
  have h' : ('E' :: "XPOSE".data) <+: ('L' :: z) := h
  have := (List.cons_prefix_cons.mp h').1
  exact absurd this (by decide)

open DockerUtils in
/-- C4 (amended): for every ApiSpec with framework fastapi, the
Dockerfile text contains the line EXPOSE 8000 and ends with the CMD
invoking uvicorn; for every ApiSpec with framework click whose name and
description contain no newline character (a newline there would let the
interpolated LABEL values inject lines), the text has no line starting
with EXPOSE and ends with the ENTRYPOINT invoking cli.py. -/
theorem C4_dockerfile_branching (spec : Core.ApiSpec) :
    (spec.framework = "fastapi" →
      "EXPOSE 8000".data ∈ splitLines (generate_dockerfile spec "python:3.11-slim").data
      ∧ "CMD [\"uvicorn\", \"main:app\", \"--host\", \"0.0.0.0\", \"--port\", \"8000\"]".data
          <:+ (generate_dockerfile spec "python:3.11-slim").data)
    ∧ (spec.framework = "click" →
      noNl spec.name.data = true → noNl spec.description.data = true →
      (∀ l ∈ splitLines (generate_dockerfile spec "python:3.11-slim").data,
        ¬ ("EXPOSE".data <+: l))
      ∧ "ENTRYPOINT [\"python\", \"cli.py\"]".data
          <:+ (generate_dockerfile spec "python:3.11-slim").data) := by
  have hgen : generate_dockerfile spec "python:3.11-slim"
      = dockerfileHeader spec "python:3.11-slim"
        ++ dockerfileExpose (dockerfilePort spec.framework)
        ++ dockerfileCmd spec.framework := rfl
  constructor
  · intro hfw
    constructor
    · have hdata : (generate_dockerfile spec "python:3.11-slim").data
          = ((dockerfileHeader spec "python:3.11-slim").data ++ "# Expose port".data)
              ++ '\n' :: ("EXPOSE 8000".data
                ++ '\n' :: ('\n' :: (dockerfileCmd "fastapi").data)) := by
        rw [hgen, hfw]
        simp only [String.data_append, List.append_assoc]
        exact congrArg ((dockerfileHeader spec "python:3.11-slim").data ++ ·) (by decide)
      rw [hdata]
      exact mem_splitLines_embedded _ (by decide) _
    · rw [hgen, hfw]
      simp only [String.data_append, List.append_assoc]
      have htail : (dockerfileExpose (dockerfilePort "fastapi")).data
            ++ (dockerfileCmd "fastapi").data
          = "# Expose port\nEXPOSE 8000\n\n".data
            ++ "CMD [\"uvicorn\", \"main:app\", \"--host\", \"0.0.0.0\", \"--port\", \"8000\"]".data := by
        decide
      rw [htail, ← List.append_assoc]
      exact List.suffix_append _ _
  · intro hfw hn hd
    constructor
    · intro l hl
      rw [click_dockerfile_lines spec hfw hn hd] at hl
      simp only [List.mem_append, List.mem_cons] at hl
      rcases hl with (rfl | rfl | rfl | hfalse) | h | h | h
      · decide
      · decide
      · decide
      · exact absurd hfalse (List.not_mem_nil l)
      · subst h
        exact expose_not_prefix_L ("ABEL maintainer=\"".data
          ++ (spec.name.data ++ "\"".data))
      · subst h
        exact expose_not_prefix_L ("ABEL description=\"".data
          ++ (spec.description.data ++ "\"".data))
      · have htail : ∀ x ∈ clickTailLines, ¬ ("EXPOSE".data <+: x) := by decide
        exact htail l h
    · rw [click_dockerfile_shape spec hfw]
      have h3 : clickSeg3.data
          = "\"\n\n# Set environment variables\nENV PYTHONUNBUFFERED=1\nENV PYTHONDONTWRITEBYTECODE=1\n\n# Set work directory\nWORKDIR /app\n\n# Install system dependencies\nRUN apt-get update && apt-get install -y \\\n    build-essential \\\n    curl \\\n    && rm -rf /var/lib/apt/lists/*\n\n# Copy requirements first for better caching\nCOPY requirements.txt .\n\n# Install Python dependencies\nRUN pip install --no-cache-dir -r requirements.txt\n\n# Copy application code\nCOPY . .\n\n".data
            ++ "ENTRYPOINT [\"python\", \"cli.py\"]".data := by decide
      rw [h3]
      exact ((((List.suffix_append _ _).trans (List.suffix_append spec.description.data _)).trans
        (List.suffix_append clickSeg2.data _)).trans
        (List.suffix_append spec.name.data _)).trans
        (List.suffix_append clickSeg1.data _)

open DockerUtils in
/-- Counterexample to C4 as stated: a click spec whose name contains a
newline makes generate_dockerfile emit a line starting with EXPOSE. -/
theorem C4_counterexample :
    injectionClickSpec.framework = "click"
    ∧ ∃ l ∈ splitLines (generate_dockerfile injectionClickSpec "python:3.11-slim").data,
        "EXPOSE".data <+: l := by
  exact ⟨rfl, by decide⟩

open DockerUtils in
/-- Witness for C4 at a concrete fastapi spec and a concrete click
spec. -/
theorem C4_dockerfile_branching_witness :
    ("EXPOSE 8000".data
        ∈ splitLines (generate_dockerfile exampleRestSpec "python:3.11-slim").data
      ∧ "CMD [\"uvicorn\", \"main:app\", \"--host\", \"0.0.0.0\", \"--port\", \"8000\"]".data
          <:+ (generate_dockerfile exampleRestSpec "python:3.11-slim").data)
    ∧ ((∀ l ∈ splitLines (generate_dockerfile exampleClickSpec "python:3.11-slim").data,
          ¬ ("EXPOSE".data <+: l))
      ∧ "ENTRYPOINT [\"python\", \"cli.py\"]".data
          <:+ (generate_dockerfile exampleClickSpec "python:3.11-slim").data) :=
  ⟨(C4_dockerfile_branching exampleRestSpec).1 rfl,
   (C4_dockerfile_branching exampleClickSpec).2 rfl (by decide) (by decide)⟩


/-! ### C1: failure semantics of analyze_text -/

/-- C1 (amended): on the Ollama-failure path (network error or
unparsable JSON, where the fallback analysis is substituted),
analyze_text returns a spec for every input text and never raises. -/
theorem C1_analyze_text_fallback_total (statistical : List Char → String) (text : String) :
    ∃ spec, Analyzer.analyze_text statistical none text = Except.ok spec :=
  ⟨_, rfl⟩

/-- Counterexample to C1 as stated: when the LLM response is a valid
JSON object whose api_type value is not a recognized enumeration value,
the ApiType constructor call inside _create_api_spec raises a
ValueError that escapes analyze_text (it sits outside the try block of
_analyze_with_ollama). -/
theorem C1_counterexample :
    Analyzer.analyze_text (fun _ => "en") (some { api_type? := some "soap" }) "users api"
      = Except.error "ValueError: soap is not a valid ApiType" := rfl

/-! ### C6: CRUD endpoint synthesis -/

/-- C6: with no LLM endpoints and pattern entities user and product
with all four CRUD verbs, the synthesized endpoint names include the
five names for user and the five for product. -/
theorem C6_crud_endpoint_synthesis :
    ∃ eps, Analyzer.create_endpoints [] ["user", "product"]
        ["create", "read", "update", "delete"] = Except.ok eps
      ∧ (["create_user", "list_user", "get_user", "update_user", "delete_user",
          "create_product", "list_product", "get_product", "update_product",
          "delete_product"].all
            (fun n => (eps.map Core.Endpoint.name).contains n)) = true := by
  refine ⟨_, rfl, ?_⟩
  decide


/-! ### C7: OpenAPI paths for the Item model -/

open OpenAPIGen in
/-- C7 (amended): for the single-model Item spec, the generated
document's paths contain GET and POST operations on /item and GET, PUT
and DELETE operations on the item path; the GET, POST, GET and PUT
operations each reference the Item schema, while the DELETE operation
responds 204 with no content and references no schema. -/
theorem C7_openapi_item_paths :
    ∃ st' doc, generate itemState = Except.ok (st', doc)
      ∧ (((getKey "/item" doc.paths).bind (getKeyJ "get")).map
            (containsRefB "#/components/schemas/Item") = some true)
      ∧ (((getKey "/item" doc.paths).bind (getKeyJ "post")).map
            (containsRefB "#/components/schemas/Item") = some true)
      ∧ (((getKey "/item/\x7bitem_id\x7d" doc.paths).bind (getKeyJ "get")).map
            (containsRefB "#/components/schemas/Item") = some true)
      ∧ (((getKey "/item/\x7bitem_id\x7d" doc.paths).bind (getKeyJ "put")).map
            (containsRefB "#/components/schemas/Item") = some true)
      ∧ (((getKey "/item/\x7bitem_id\x7d" doc.paths).bind (getKeyJ "delete")).isSome = true)
      ∧ (((getKey "/item/\x7bitem_id\x7d" doc.paths).bind (getKeyJ "delete")).map
            (containsRefB "#/components/schemas/Item") = some false) := by
  refine ⟨_, _, rfl, ?_, ?_, ?_, ?_, ?_, ?_⟩ <;> rfl

open OpenAPIGen in
/-- Counterexample to C7 as stated: the DELETE operation on the item
path exists but references no schema (its only response is a bodiless
204), so not every one of the five operations references
the Item schema. -/
theorem C7_counterexample :
    ∃ st' doc, generate itemState = Except.ok (st', doc)
      ∧ ∃ d, (getKey "/item/\x7bitem_id\x7d" doc.paths).bind (getKeyJ "delete") = some d
        ∧ containsRefB "#/components/schemas/Item" d = false := by
  refine ⟨_, _, rfl, _, rfl, rfl⟩

/-! ### C9: the generator mutates a model-less spec -/

open OpenAPIGen in
/-- C9 (amended): generate leaves the given api_spec dict unchanged
exactly when the dict defines a models key; when the key is absent,
_generate_models mutates the stored dict by inserting the default Item
model before the paths are produced. -/
theorem C9_generate_spec_mutation (st : GenState) (h : st.project_name ≠ "") :
    ∃ st' doc, generate st = Except.ok (st', doc)
      ∧ st'.project_name = st.project_name
      ∧ st'.output_dir = st.output_dir
      ∧ st'.api_spec = (if st.api_spec.models?.isSome then st.api_spec
          else { st.api_spec with models? := some [defaultItemModel] }) := by
  simp only [generate, if_neg h]
  refine ⟨_, _, rfl, rfl, rfl, ?_⟩
  by_cases hm : st.api_spec.models?.isSome
  · simp [generate_models, hm]
  · simp [generate_models, hm]

open OpenAPIGen in
/-- Counterexample to C9 as stated: when the spec dict handed to the
generator has no models key, generate returns with the stored spec
changed (the default Item model was inserted into it). -/
theorem C9_counterexample :
    ∃ st' doc, generate noModelsState = Except.ok (st', doc)
      ∧ st'.api_spec ≠ noModelsState.api_spec := by
  refine ⟨_, _, rfl, ?_⟩
  decide

open OpenAPIGen in
/-- Witness for C9 at a concrete state whose spec has a models key. -/
theorem C9_generate_spec_mutation_witness :
    ∃ st' doc, generate itemState = Except.ok (st', doc)
      ∧ st'.project_name = itemState.project_name
      ∧ st'.output_dir = itemState.output_dir
      ∧ st'.api_spec = (if itemState.api_spec.models?.isSome then itemState.api_spec
          else { itemState.api_spec with models? := some [defaultItemModel] }) :=
  C9_generate_spec_mutation itemState (by decide)

end Text2Api
